import Mathlib

/-!
Verification development for `src/benchmark_models.py`, the Ollama model
benchmarking script.  The script is shallowly embedded: Python floats are
modelled as rationals, the external backend (the `ollama` subprocess), the
wall clock and the resident-memory readings are explicit environment data,
and each method of `OllamaBenchmark` becomes a pure Lean function of that
data.  Printing is modelled by returning the data the script would print
where a property refers to it.
-/

/-- Python `round(x, 2)` rounds the scaled value to the nearest integer,
ties to even (banker's rounding).  Binary floating-point representation
error is abstracted away by the rational embedding. -/
def pyRound (q : ℚ) : ℤ :=
  let f := Int.floor q
  let r := q - f
  if r < 1/2 then f
  else if 1/2 < r then f + 1
  else if f % 2 = 0 then f else f + 1

/-- `round(x, 2)`: two decimal places, as used throughout the script. -/
def round2 (q : ℚ) : ℚ := (pyRound (q * 100) : ℚ) / 100

/-- Python `s.strip()` on a character list: drop leading and trailing
whitespace. -/
def stripChars (cs : List Char) : List Char :=
  ((cs.dropWhile Char.isWhitespace).reverse.dropWhile Char.isWhitespace).reverse

/-- Python `s.strip()`. -/
def pyStrip (s : String) : String := ⟨stripChars s.data⟩

/-- Python `len(s)`: the number of characters. -/
def pyLen (s : String) : Nat := s.data.length

/-- Python `s[:n]`: the first `n` characters. -/
def pyTake (s : String) (n : Nat) : String := ⟨s.data.take n⟩

/-- Worker for `splitWs`: `acc` holds the current token reversed. -/
def splitWsAux : List Char → List Char → List (List Char)
  | [], acc => if acc.isEmpty then [] else [acc.reverse]
  | c :: cs, acc =>
      if c.isWhitespace then
        if acc.isEmpty then splitWsAux cs [] else acc.reverse :: splitWsAux cs []
      else splitWsAux cs (c :: acc)

/-- Python `text.split()` with no separator: the maximal whitespace-free
runs, empty pieces discarded. -/
def splitWs (cs : List Char) : List (List Char) := splitWsAux cs []

/-- `OllamaBenchmark.count_tokens`: `len(text.split())`. -/
def count_tokens (text : String) : Nat := (splitWs text.data).length

/-- One entry of `OllamaBenchmark.test_prompts`. -/
structure PromptSpec where
  name : String
  prompt : String
  expected_tokens : Nat
deriving DecidableEq

/-- The fixed prompt set defined in `OllamaBenchmark.__init__`. -/
def test_prompts : List PromptSpec :=
  [ ⟨"Creative Writing",
     "Write a short story about a robot discovering emotions for the first time.",
     150⟩,
    ⟨"Technical Explanation",
     "Explain how neural networks work in simple terms that a beginner could understand.",
     200⟩,
    ⟨"Code Generation",
     "Write a Python function that calculates the factorial of a number using recursion.",
     100⟩ ]

/-- What one `subprocess.run(['ollama', 'run', model, prompt], timeout=120)`
call does, as observed by the script: normal completion with an exit code
and both output streams, `subprocess.TimeoutExpired`, or any other raised
exception (caught by `except Exception as e`). -/
inductive BackendOutcome where
  | completed (returncode : Int) (stdout stderr : String)
  | timedOut
  | raised (msg : String)
deriving DecidableEq

/-- The environment of one inference invocation: the backend outcome, the
wall-clock duration `end_time - start_time`, and the calling process's
resident memory readings (MB) before and after. -/
structure InfEnv where
  outcome : BackendOutcome
  elapsed : ℚ
  memBefore : ℚ
  memAfter : ℚ
deriving DecidableEq

/-- The `metrics` dictionary built by `run_inference`: each key is optional,
mirroring a Python dict that holds either the five success metrics or the
single `error` entry.  Field order: `total_time`, `tokens_generated`,
`tokens_per_second`, `memory_delta_mb`, `response_length`, `error`. -/
structure MetricsDict where
  total_time : Option ℚ
  tokens_generated : Option Nat
  tokens_per_second : Option ℚ
  memory_delta_mb : Option ℚ
  response_length : Option Nat
  error : Option String
deriving DecidableEq

/-- The dictionary `{"error": msg}` returned on every failure path. -/
def errDict (msg : String) : MetricsDict := ⟨none, none, none, none, none, some msg⟩

/-- A dict holding the five success metrics and no error key. -/
def MetricsDict.isSuccess (m : MetricsDict) : Prop :=
  m.error = none ∧ m.total_time ≠ none ∧ m.tokens_generated ≠ none ∧
    m.tokens_per_second ≠ none ∧ m.memory_delta_mb ≠ none ∧ m.response_length ≠ none

/-- A dict holding only the error key. -/
def MetricsDict.isError (m : MetricsDict) : Prop :=
  m.error ≠ none ∧ m.total_time = none ∧ m.tokens_generated = none ∧
    m.tokens_per_second = none ∧ m.memory_delta_mb = none ∧ m.response_length = none

/-- The tuple `(response, total_time, tokens_per_second, metrics)` returned
by `OllamaBenchmark.run_inference`. -/
structure InfReturn where
  response : String
  total_time : ℚ
  tokens_per_second : ℚ
  metrics : MetricsDict
deriving DecidableEq

/-- `OllamaBenchmark.run_inference`.  Every fault of the backend call is
caught inside (`returncode != 0`, `TimeoutExpired`, `except Exception`), so
the function is total over every backend outcome. -/
def run_inference (env : InfEnv) : InfReturn :=
  match env.outcome with
  | BackendOutcome.completed rc out stderr =>
      if rc ≠ 0 then ⟨"", 0, 0, errDict stderr⟩
      else
        let response := pyStrip out
        let total_time := env.elapsed
        let token_count := count_tokens response
        let tokens_per_second : ℚ :=
          if total_time > 0 then (token_count : ℚ) / total_time else 0
        let memory_used := env.memAfter - env.memBefore
        ⟨response, total_time, tokens_per_second,
          ⟨some (round2 total_time), some token_count, some (round2 tokens_per_second),
           some (round2 memory_used), some (pyLen response), none⟩⟩
  | BackendOutcome.timedOut => ⟨"", 0, 0, errDict "Timeout after 120 seconds"⟩
  | BackendOutcome.raised msg => ⟨"", 0, 0, errDict msg⟩

/-- The response preview stored in a prompt result:
`response[:200] + "..." if len(response) > 200 else response`. -/
def truncate_response (response : String) : String :=
  if pyLen response > 200 then pyTake response 200 ++ "..." else response

/-- One entry of the `prompts` list of a model's results dictionary. -/
structure PromptResult where
  name : String
  prompt : String
  response : String
  metrics : MetricsDict
deriving DecidableEq

/-- The accumulator state of `benchmark_model`'s prompt loop: the collected
prompt results and the running `total_tps`, `total_time`,
`successful_tests`. -/
structure BMAcc where
  prompts : List PromptResult
  total_tps : ℚ
  total_time : ℚ
  successful_tests : Nat
deriving DecidableEq

/-- The prompt loop of `OllamaBenchmark.benchmark_model`, invocation `i`
drawing its backend behaviour from `envs i`.  A prompt counts as successful
exactly when `"error" not in metrics`. -/
def bm_loop (envs : Nat → InfEnv) : Nat → List PromptSpec → BMAcc
  | _, [] => ⟨[], 0, 0, 0⟩
  | i, p :: ps =>
      let r := run_inference (envs i)
      let prompt_result : PromptResult :=
        ⟨p.name, p.prompt, truncate_response r.response, r.metrics⟩
      let rest := bm_loop envs (i + 1) ps
      if r.metrics.error.isNone then
        ⟨prompt_result :: rest.prompts, r.tokens_per_second + rest.total_tps,
         r.total_time + rest.total_time, rest.successful_tests + 1⟩
      else
        ⟨prompt_result :: rest.prompts, rest.total_tps, rest.total_time,
         rest.successful_tests⟩

/-- The per-model results dictionary: `average_tps` and `average_time` are
initialised to `0.0` and overwritten only when some prompt succeeded, while
the `success_rate` key is added to the dict only in that case (hence an
`Option`). -/
structure ModelReport where
  model : String
  timestamp : String
  prompts : List PromptResult
  average_tps : ℚ
  average_time : ℚ
  success_rate : Option ℚ
deriving DecidableEq

/-- `OllamaBenchmark.benchmark_model` (`ts` stands for the
`datetime.now().isoformat()` timestamp). -/
def benchmark_model (model ts : String) (envs : Nat → InfEnv) : ModelReport :=
  let acc := bm_loop envs 0 test_prompts
  if 0 < acc.successful_tests then
    ⟨model, ts, acc.prompts,
     round2 (acc.total_tps / (acc.successful_tests : ℚ)),
     round2 (acc.total_time / (acc.successful_tests : ℚ)),
     some (round2 ((acc.successful_tests : ℚ) / (test_prompts.length : ℚ)))⟩
  else
    ⟨model, ts, acc.prompts, 0, 0, none⟩

/-- The indices of the prompts whose invocation succeeds under `envs`
(no `error` key in the metrics dict). -/
def successList (envs : Nat → InfEnv) : List Nat :=
  (List.range test_prompts.length).filter
    (fun j => ((run_inference (envs j)).metrics.error).isNone)

/-- What `subprocess.run(['ollama', 'list'], check=True)` does, as observed
by `get_available_models`: completion with the listing text, a
`CalledProcessError` (non-zero exit, raised by `check=True` and caught), or
a `FileNotFoundError` (binary absent, not caught there). -/
inductive ListOutcome where
  | ok (stdout : String)
  | calledProcessError (msg : String)
  | fileNotFoundError (msg : String)
deriving DecidableEq

/-- Worker for `splitLines`: Python `s.split('\n')`, empty pieces kept. -/
def splitLinesAux : List Char → List Char → List (List Char)
  | [], acc => [acc.reverse]
  | c :: cs, acc =>
      if c = Char.ofNat 10 then acc.reverse :: splitLinesAux cs []
      else splitLinesAux cs (c :: acc)

/-- Python `s.split('\n')`. -/
def splitLines (cs : List Char) : List (List Char) := splitLinesAux cs []

/-- The parsing in `get_available_models`:
`result.stdout.strip().split('\n')[1:]`, then for each line whose `strip()`
is non-empty the first whitespace-delimited field (`line.split()[0]`). -/
def parse_model_list (stdout : String) : List String :=
  ((splitLines (stripChars stdout.data)).drop 1).filterMap
    (fun line =>
      if (stripChars line).isEmpty then none
      else ((splitWs line).head?).map (fun t => (⟨t⟩ : String)))

/-- `OllamaBenchmark.get_available_models`.  A `CalledProcessError` is
caught (the error is printed and an empty list returned); a
`FileNotFoundError` is not caught and propagates (`Except.error`). -/
def get_available_models : ListOutcome → Except String (List String)
  | ListOutcome.ok stdout => Except.ok (parse_model_list stdout)
  | ListOutcome.calledProcessError _ => Except.ok []
  | ListOutcome.fileNotFoundError msg => Except.error msg

/-- What benchmarking one model does at the orchestrator's `try` boundary:
`benchmark_model` returns normally (its per-invocation environments given),
or an `Exception` escapes it, or a `KeyboardInterrupt` escapes it.  In the
two fault cases `collected` is the partial prompt-result list the local
dictionary held when the fault struck; the script's `except` arms discard
it. -/
inductive ModelAttempt where
  | ok (envs : Nat → InfEnv)
  | raised (msg : String) (collected : List PromptResult)
  | interrupted (collected : List PromptResult)

/-- The model loop of `run_full_benchmark`: append on success, `continue`
on `except Exception`, `break` on `except KeyboardInterrupt`. -/
def run_loop (ts : String) : List (String × ModelAttempt) → List ModelReport
  | [] => []
  | (model, ModelAttempt.ok envs) :: rest =>
      benchmark_model model ts envs :: run_loop ts rest
  | (_, ModelAttempt.raised _ _) :: rest => run_loop ts rest
  | (_, ModelAttempt.interrupted _) :: _ => []

/-- The `system_info` block of the persisted artifact. -/
structure SystemInfo where
  cpu_count : Nat
  memory_gb : ℚ
  python_version : String
deriving DecidableEq

/-- The JSON object `save_results` serialises: date, system info, the test
configuration (prompt set and the 120-second timeout), and the accumulated
results exactly as collected. -/
structure BenchmarkData where
  benchmark_date : String
  system_info : SystemInfo
  prompts : List PromptSpec
  timeout_seconds : Nat
  results : List ModelReport
deriving DecidableEq

/-- The artifact built by `OllamaBenchmark.save_results`. -/
def save_results_data (date : String) (sys : SystemInfo)
    (results : List ModelReport) : BenchmarkData :=
  ⟨date, sys, test_prompts, 120, results⟩

/-- `f"benchmark-results-{timestamp}.json"` with the date-formatted
timestamp. -/
def results_filename (date : String) : String :=
  "benchmark-results-" ++ date ++ ".json"

/-- Filesystem operations, to state how `save_results` writes. -/
inductive FsOp where
  | openTrunc (path : String)
  | write (path content : String)
  | close (path : String)
  | rename (src dst : String)
deriving DecidableEq

/-- The write trace of `save_results`:
`with open(filename, 'w') as f: json.dump(benchmark_data, f, indent=2)` —
the final path is opened in truncating write mode and written directly. -/
def save_results_ops (date content : String) : List FsOp :=
  [FsOp.openTrunc (results_filename date),
   FsOp.write (results_filename date) content,
   FsOp.close (results_filename date)]

/-- Modelled from the spec: "write to temp location, then publish/rename,
or equivalent".  A trace writes `final` atomically when it never opens or
writes `final` in place and `final` is produced only by renaming a distinct
temporary path onto it. -/
def atomicViaRename (ops : List FsOp) (final : String) : Prop :=
  FsOp.openTrunc final ∉ ops ∧ (∀ c : String, FsOp.write final c ∉ ops) ∧
    ∃ tmp, tmp ≠ final ∧ FsOp.rename tmp final ∈ ops

/-- Effect of one filesystem operation on the store (path to contents). -/
def applyOp (fs : String → Option String) : FsOp → String → Option String
  | FsOp.openTrunc p, q => if q = p then some "" else fs q
  | FsOp.write p c, q => if q = p then some (((fs p).getD "") ++ c) else fs q
  | FsOp.close _, q => fs q
  | FsOp.rename src dst, q =>
      if q = dst then fs src else if q = src then none else fs q

/-- Effect of a trace of filesystem operations, first to last. -/
def runOps (fs : String → Option String) : List FsOp → String → Option String
  | [] => fs
  | op :: ops => runOps (applyOp fs op) ops

/-- What `print_summary` emits: whether the "No results to display" branch
was taken, the ranked rows of the table in print order, and the entry named
as fastest (printed only when the ranked list is non-empty). -/
structure SummaryOutput where
  no_results : Bool
  rows : List ModelReport
  fastest : Option ModelReport
deriving DecidableEq

/-- Stable insertion for a descending sort: the new element goes in front
of the first element whose `average_tps` is not larger, so earlier elements
stay ahead of later ties. -/
def insertDesc (r : ModelReport) : List ModelReport → List ModelReport
  | [] => [r]
  | x :: xs =>
      if x.average_tps ≤ r.average_tps then r :: x :: xs else x :: insertDesc r xs

/-- Python's stable `sorted(xs, key=lambda x: x.get('average_tps', 0),
reverse=True)`, realised as a stable insertion sort (a stable sort's output
is unique, so any stable algorithm is extensionally the same). -/
def sortDesc (xs : List ModelReport) : List ModelReport :=
  xs.foldr insertDesc []

/-- `OllamaBenchmark.print_summary`: early return when `self.results` is
empty; otherwise filter to `average_tps > 0`, sort descending, print the
rows and name the head of the ranked list as fastest. -/
def print_summary (results : List ModelReport) : SummaryOutput :=
  if results.isEmpty then ⟨true, [], none⟩
  else
    let sorted_results := sortDesc (results.filter (fun r => 0 < r.average_tps))
    ⟨false, sorted_results, sorted_results.head?⟩

/-- What `run_full_benchmark` leaves behind: the accumulated reports, the
artifact it persisted (if it reached `save_results`) and the summary it
printed (if it reached `print_summary`). -/
structure RunOutput where
  reports : List ModelReport
  saved : Option BenchmarkData
  summary : Option SummaryOutput

/-- `OllamaBenchmark.run_full_benchmark`: discovery (whose uncaught
`FileNotFoundError` propagates), early return with nothing persisted when
no models were found, otherwise the model loop followed unconditionally by
`save_results` and `print_summary`. -/
def run_full_benchmark (ts date : String) (sys : SystemInfo)
    (listing : ListOutcome) (attempt : String → ModelAttempt) :
    Except String RunOutput :=
  match get_available_models listing with
  | Except.error e => Except.error e
  | Except.ok models =>
      if models.isEmpty then Except.ok ⟨[], none, none⟩
      else
        let reports := run_loop ts (models.map (fun m => (m, attempt m)))
        Except.ok ⟨reports, some (save_results_data date sys reports),
                   some (print_summary reports)⟩

/-- Character list of `n` space-separated one-letter tokens. -/
def tokChars : Nat → List Char
  | 0 => []
  | 1 => [Char.ofNat 97]
  | n + 2 => Char.ofNat 97 :: Char.ofNat 32 :: tokChars (n + 1)

/-- A stdout string of `n` whitespace-delimited tokens. -/
def tok (n : Nat) : String := ⟨tokChars n⟩

/-- Scenario A environments: three successful invocations taking 1 second
each, generating 10, 20 and 30 tokens. -/
def cenvA : Nat → InfEnv := fun i =>
  if i = 0 then ⟨BackendOutcome.completed 0 (tok 10) "", 1, 0, 0⟩
  else if i = 1 then ⟨BackendOutcome.completed 0 (tok 20) "", 1, 0, 0⟩
  else ⟨BackendOutcome.completed 0 (tok 30) "", 1, 0, 0⟩

/-- Environments where every invocation succeeds with one token in three
seconds, so each computed tokens-per-second value is 1/3. -/
def cenvThird : Nat → InfEnv := fun _ =>
  ⟨BackendOutcome.completed 0 "a" "", 3, 0, 0⟩

/-- Environments where every invocation times out. -/
def cenvFail : Nat → InfEnv := fun _ => ⟨BackendOutcome.timedOut, 0, 0, 0⟩

/-- A report whose `average_tps` is zero (all prompts failed). -/
def zeroReport : ModelReport := ⟨"m2", "ts", [], 0, 0, none⟩

/-- A concrete prompt result, standing for data collected before an
interruption. -/
def cpr : PromptResult :=
  ⟨"Creative Writing", "p", "", errDict "Timeout after 120 seconds"⟩

/-- A concrete system-info block. -/
def csys : SystemInfo := ⟨8, 32, "3.12"⟩

/-- A run where model m1 completes, m2 is interrupted mid-sequence with one
prompt result already collected, and m3 never runs. -/
def cAttempts : List (String × ModelAttempt) :=
  [("m1", ModelAttempt.ok cenvFail),
   ("m2", ModelAttempt.interrupted [cpr]),
   ("m3", ModelAttempt.ok cenvFail)]

/-- C1: for every successful invocation (backend completed with exit code
0), the returned tokens-per-second value equals the whitespace-delimited
token count of the response text divided by the elapsed seconds when the
elapsed time is positive, and 0 otherwise; the response is the stripped
stdout and the error key is absent. -/
theorem c1_tokens_per_second_formula (out stderr : String) (elapsed mb ma : ℚ) :
    (run_inference ⟨BackendOutcome.completed 0 out stderr, elapsed, mb,
        ma⟩).response = pyStrip out ∧
    (run_inference ⟨BackendOutcome.completed 0 out stderr, elapsed, mb,
        ma⟩).total_time = elapsed ∧
    (run_inference ⟨BackendOutcome.completed 0 out stderr, elapsed, mb,
        ma⟩).metrics.error = none ∧
    (run_inference ⟨BackendOutcome.completed 0 out stderr, elapsed, mb,
        ma⟩).tokens_per_second =
      (if 0 < elapsed then
        ((count_tokens (run_inference ⟨BackendOutcome.completed 0 out stderr,
          elapsed, mb, ma⟩).response : ℚ) / elapsed)
      else 0) := by
  exact ⟨rfl, rfl, rfl, rfl⟩

/-- Characterisation of `benchmark_model`: with no successful prompt the
averages stay at their initial 0 and the `success_rate` key is never
added; otherwise each average is the arithmetic mean over the successful
invocations, rounded to two decimals, and the success rate is the rounded
fraction of successful prompts. -/
theorem benchmark_model_char (model ts : String) (envs : Nat → InfEnv) :
    (successList envs = [] →
      benchmark_model model ts envs =
        ⟨model, ts, (bm_loop envs 0 test_prompts).prompts, 0, 0, none⟩) ∧
    (successList envs ≠ [] →
      benchmark_model model ts envs =
        ⟨model, ts, (bm_loop envs 0 test_prompts).prompts,
         round2 (((successList envs).map
             (fun j => (run_inference (envs j)).tokens_per_second)).sum /
           ((successList envs).length : ℚ)),
         round2 (((successList envs).map
             (fun j => (run_inference (envs j)).total_time)).sum /
           ((successList envs).length : ℚ)),
         some (round2 (((successList envs).length : ℚ) /
           (test_prompts.length : ℚ)))⟩) := by
  have hr : List.range test_prompts.length = [0, 1, 2] := rfl
  by_cases b0 : ((run_inference (envs 0)).metrics.error).isNone <;>
  by_cases b1 : ((run_inference (envs 1)).metrics.error).isNone <;>
  by_cases b2 : ((run_inference (envs 2)).metrics.error).isNone <;>
  simp [successList, hr, List.filter, b0, b1, b2, benchmark_model, bm_loop,
    test_prompts]

/-- C4: every invocation yields exactly one of a success dict (all five
metrics, no error key) or an error dict (only the error key), classified as
the stderr text on a non-zero exit, the fixed timeout message on
`TimeoutExpired`, and the exception message otherwise; `run_inference` is a
total function of the backend outcome, so no exception propagates. -/
theorem c4_outcome_dichotomy (env : InfEnv) :
    let m := (run_inference env).metrics
    (m.isSuccess ∨ m.isError) ∧ ¬(m.isSuccess ∧ m.isError) ∧
    (∀ rc out stderr, env.outcome = BackendOutcome.completed rc out stderr →
        rc ≠ 0 → m = errDict stderr) ∧
    (∀ out stderr, env.outcome = BackendOutcome.completed 0 out stderr →
        m.isSuccess) ∧
    (env.outcome = BackendOutcome.timedOut →
        m = errDict "Timeout after 120 seconds") ∧
    (∀ msg, env.outcome = BackendOutcome.raised msg → m = errDict msg) := by
  obtain ⟨o, t, mb, ma⟩ := env
  cases o with
  | completed rc out stderr =>
      by_cases h : rc = 0
      · subst h
        simp [run_inference, MetricsDict.isSuccess, MetricsDict.isError, errDict]
      · simp [run_inference, h, MetricsDict.isSuccess, MetricsDict.isError, errDict]
  | timedOut =>
      simp [run_inference, MetricsDict.isSuccess, MetricsDict.isError, errDict]
  | raised msg =>
      simp [run_inference, MetricsDict.isSuccess, MetricsDict.isError, errDict]

/-- C2 (amended): `average_tps` is the arithmetic mean of the computed
tokens-per-second values over only the successful prompt results, rounded
to two decimal places (likewise `average_time` over the elapsed times);
both default to 0 when no prompt succeeded.  Scenario A still holds
exactly: three successes at 10, 20 and 30 tokens per second give
`average_tps = 20` and `success_rate = 1`. -/
theorem c2_average_tps_rounded_mean (model ts : String) (envs : Nat → InfEnv) :
    (successList envs ≠ [] →
      (benchmark_model model ts envs).average_tps =
        round2 (((successList envs).map
            (fun j => (run_inference (envs j)).tokens_per_second)).sum /
          ((successList envs).length : ℚ)) ∧
      (benchmark_model model ts envs).average_time =
        round2 (((successList envs).map
            (fun j => (run_inference (envs j)).total_time)).sum /
          ((successList envs).length : ℚ))) ∧
    (successList envs = [] →
      (benchmark_model model ts envs).average_tps = 0 ∧
      (benchmark_model model ts envs).average_time = 0) ∧
    (benchmark_model "m1" ts cenvA).average_tps = 20 ∧
    (benchmark_model "m1" ts cenvA).success_rate = some 1 := by
  refine ⟨?_, ?_, ?_, ?_⟩
  · intro h
    rw [(benchmark_model_char model ts envs).2 h]
    exact ⟨rfl, rfl⟩
  · intro h
    rw [(benchmark_model_char model ts envs).1 h]
    exact ⟨rfl, rfl⟩
  · have hS : successList cenvA = [0, 1, 2] := by decide
    have t0 : (run_inference (cenvA 0)).tokens_per_second = 10 := by
      have hc : count_tokens (pyStrip (tok 10)) = 10 := by decide
      simp [run_inference, cenvA, hc]
    have t1 : (run_inference (cenvA 1)).tokens_per_second = 20 := by
      have hc : count_tokens (pyStrip (tok 20)) = 20 := by decide
      simp [run_inference, cenvA, hc]
    have t2 : (run_inference (cenvA 2)).tokens_per_second = 30 := by
      have hc : count_tokens (pyStrip (tok 30)) = 30 := by decide
      simp [run_inference, cenvA, hc]
    rw [(benchmark_model_char "m1" ts cenvA).2 (by rw [hS]; exact by decide)]
    show round2 (((successList cenvA).map _).sum / _) = 20
    rw [hS]
    simp [t0, t1, t2]
    norm_num [round2, pyRound]
  · have hS : successList cenvA = [0, 1, 2] := by decide
    rw [(benchmark_model_char "m1" ts cenvA).2 (by rw [hS]; exact by decide)]
    show some (round2 _) = some 1
    rw [hS]
    norm_num [round2, pyRound, test_prompts]

/-- C2 counterexample: with three successful prompts whose computed
tokens-per-second values are each 1/3 (one token in three seconds), the
exact arithmetic mean is 1/3, but the report records
`average_tps = 33/100` — the stored value is the rounded mean, not the
mean. -/
theorem c2_exact_mean_counterexample :
    (run_inference (cenvThird 0)).metrics.error = none ∧
    (run_inference (cenvThird 0)).tokens_per_second = 1/3 ∧
    (benchmark_model "m" "ts" cenvThird).average_tps = 33/100 ∧
    ((1 : ℚ)/3 + 1/3 + 1/3) / 3 ≠ 33/100 := by
  have hc : count_tokens (pyStrip "a") = 1 := by decide
  have ht : (run_inference (cenvThird 0)).tokens_per_second = 1/3 := by
    simp [run_inference, cenvThird, hc]
  have hS : successList cenvThird = [0, 1, 2] := by decide
  refine ⟨by decide, ht, ?_, by norm_num⟩
  rw [(benchmark_model_char "m" "ts" cenvThird).2 (by rw [hS]; exact by decide)]
  show round2 (((successList cenvThird).map _).sum / _) = 33/100
  rw [hS]
  have ht1 : (run_inference (cenvThird 1)).tokens_per_second = 1/3 := ht
  have ht2 : (run_inference (cenvThird 2)).tokens_per_second = 1/3 := ht
  simp [ht, ht1, ht2]
  norm_num [round2, pyRound]

/-- C3 (amended): when at least one prompt succeeds, `success_rate` is the
number of successes divided by the number of prompts attempted, rounded to
two decimal places, and it lies in [0, 1]; when every prompt fails the
`success_rate` key is never added to the report (consumers read it with a
default of 0). -/
theorem c3_success_rate_rounded_partial (model ts : String) (envs : Nat → InfEnv) :
    ((successList envs).length ≠ 0 →
      (benchmark_model model ts envs).success_rate =
        some (round2 (((successList envs).length : ℚ) /
          (test_prompts.length : ℚ)))) ∧
    ((successList envs).length = 0 →
      (benchmark_model model ts envs).success_rate = none) ∧
    (∀ q : ℚ, (benchmark_model model ts envs).success_rate = some q →
      0 ≤ q ∧ q ≤ 1) := by
  have hr : List.range test_prompts.length = [0, 1, 2] := rfl
  by_cases b0 : ((run_inference (envs 0)).metrics.error).isNone <;>
  by_cases b1 : ((run_inference (envs 1)).metrics.error).isNone <;>
  by_cases b2 : ((run_inference (envs 2)).metrics.error).isNone <;>
  simp [successList, hr, List.filter, b0, b1, b2, benchmark_model, bm_loop,
    test_prompts] <;>
  norm_num [round2, pyRound]

/-- C3 counterexample: a model whose three prompts all time out gets a
report with no `success_rate` entry at all — the key is only written when
`successful_tests > 0` — so the report does not carry `successRate = 0.0`;
the three prompts were attempted (all three prompt results are present,
each holding the timeout error). -/
theorem c3_success_rate_counterexample :
    (benchmark_model "m2" "ts" cenvFail).success_rate = none ∧
    (benchmark_model "m2" "ts" cenvFail).success_rate ≠ some 0 ∧
    (benchmark_model "m2" "ts" cenvFail).prompts.length = 3 ∧
    ((benchmark_model "m2" "ts" cenvFail).prompts.map
      (fun p => p.metrics.error)).all
        (fun e => e = some "Timeout after 120 seconds") = true := by
  refine ⟨rfl, by decide, rfl, by decide⟩

/-- C10: every rational stored in a successful invocation's metrics dict
(`total_time`, `tokens_per_second`, `memory_delta_mb`) is the
two-decimal rounding of the corresponding computed value, and every
rational aggregate of a report with at least one success (`average_tps`,
`average_time`, `success_rate`) is the two-decimal rounding of the exact
mean or ratio, so the exact arithmetic identities hold of the persisted
values only up to this rounding. -/
theorem c10_two_decimal_rounding (out stderr : String) (elapsed mb ma : ℚ)
    (model ts : String) (envs : Nat → InfEnv) :
    (run_inference ⟨BackendOutcome.completed 0 out stderr, elapsed, mb,
        ma⟩).metrics.total_time =
      some (round2 (run_inference ⟨BackendOutcome.completed 0 out stderr,
        elapsed, mb, ma⟩).total_time) ∧
    (run_inference ⟨BackendOutcome.completed 0 out stderr, elapsed, mb,
        ma⟩).metrics.tokens_per_second =
      some (round2 (run_inference ⟨BackendOutcome.completed 0 out stderr,
        elapsed, mb, ma⟩).tokens_per_second) ∧
    (run_inference ⟨BackendOutcome.completed 0 out stderr, elapsed, mb,
        ma⟩).metrics.memory_delta_mb = some (round2 (ma - mb)) ∧
    (successList envs ≠ [] →
      (benchmark_model model ts envs).average_tps =
        round2 (((successList envs).map
            (fun j => (run_inference (envs j)).tokens_per_second)).sum /
          ((successList envs).length : ℚ)) ∧
      (benchmark_model model ts envs).average_time =
        round2 (((successList envs).map
            (fun j => (run_inference (envs j)).total_time)).sum /
          ((successList envs).length : ℚ)) ∧
      (benchmark_model model ts envs).success_rate =
        some (round2 (((successList envs).length : ℚ) /
          (test_prompts.length : ℚ)))) := by
  refine ⟨rfl, rfl, rfl, fun h => ?_⟩
  rw [(benchmark_model_char model ts envs).2 h]
  exact ⟨rfl, rfl, rfl⟩

/-- Decomposition of stable descending insertion: the inserted element
lands after exactly the strictly-greater elements. -/
theorem insertDesc_decomp (x : ModelReport) (l : List ModelReport) :
    ∃ l1 l2, l = l1 ++ l2 ∧ insertDesc x l = l1 ++ x :: l2 ∧
      ∀ y ∈ l1, x.average_tps < y.average_tps := by
  induction l with
  | nil => exact ⟨[], [], rfl, rfl, by simp⟩
  | cons y ys ih =>
      by_cases h : y.average_tps ≤ x.average_tps
      · exact ⟨[], y :: ys, rfl, by simp [insertDesc, h], by simp⟩
      · obtain ⟨l1, l2, he, hi, hlt⟩ := ih
        refine ⟨y :: l1, l2, by simp [he], by simp [insertDesc, h, hi], ?_⟩
        intro z hz
        rcases List.mem_cons.mp hz with rfl | hz
        · exact lt_of_not_le h
        · exact hlt z hz

theorem mem_insertDesc (x : ModelReport) (l : List ModelReport) (z : ModelReport) :
    z ∈ insertDesc x l ↔ z = x ∨ z ∈ l := by
  obtain ⟨l1, l2, he, hi, -⟩ := insertDesc_decomp x l
  subst he
  rw [hi]
  simp [List.mem_append, List.mem_cons]
  tauto

theorem insertDesc_sorted (x : ModelReport) (l : List ModelReport)
    (h : List.Sorted (fun a b => b.average_tps ≤ a.average_tps) l) :
    List.Sorted (fun a b => b.average_tps ≤ a.average_tps) (insertDesc x l) := by
  induction l with
  | nil => simp [insertDesc]
  | cons y ys ih =>
      rw [List.sorted_cons] at h
      by_cases hxy : y.average_tps ≤ x.average_tps
      · rw [show insertDesc x (y :: ys) = x :: y :: ys from by
          simp [insertDesc, hxy]]
        rw [List.sorted_cons]
        refine ⟨?_, List.sorted_cons.mpr h⟩
        intro b hb
        rcases List.mem_cons.mp hb with rfl | hb
        · exact hxy
        · exact le_trans (h.1 b hb) hxy
      · rw [show insertDesc x (y :: ys) = y :: insertDesc x ys from by
          simp [insertDesc, hxy]]
        rw [List.sorted_cons]
        refine ⟨?_, ih h.2⟩
        intro b hb
        rcases (mem_insertDesc x ys b).mp hb with rfl | hb
        · exact le_of_lt (lt_of_not_le hxy)
        · exact h.1 b hb

theorem insertDesc_filter_eq (x : ModelReport) (l : List ModelReport) (q : ℚ) :
    (insertDesc x l).filter (fun r => r.average_tps = q) =
      if x.average_tps = q
      then x :: l.filter (fun r => r.average_tps = q)
      else l.filter (fun r => r.average_tps = q) := by
  obtain ⟨l1, l2, he, hi, hlt⟩ := insertDesc_decomp x l
  subst he
  rw [hi]
  by_cases hx : x.average_tps = q
  · have h1 : l1.filter (fun r => decide (r.average_tps = q)) = [] := by
      rw [List.filter_eq_nil_iff]
      intro a ha
      have := hlt a ha
      simp
      exact fun hc => absurd (hx ▸ hc) (ne_of_gt this)
    simp [List.filter_append, h1, hx]
  · simp [List.filter_append, hx]

theorem sortDesc_sorted (l : List ModelReport) :
    List.Sorted (fun a b => b.average_tps ≤ a.average_tps) (sortDesc l) := by
  induction l with
  | nil => simp [sortDesc]
  | cons x xs ih => exact insertDesc_sorted x _ ih

theorem sortDesc_filter_eq (l : List ModelReport) (q : ℚ) :
    (sortDesc l).filter (fun r => r.average_tps = q) =
      l.filter (fun r => r.average_tps = q) := by
  induction l with
  | nil => rfl
  | cons x xs ih =>
      show (insertDesc x (sortDesc xs)).filter _ = _
      rw [insertDesc_filter_eq]
      by_cases hx : x.average_tps = q <;> simp [hx, ih, List.filter_cons]

theorem mem_sortDesc (l : List ModelReport) (z : ModelReport) :
    z ∈ sortDesc l ↔ z ∈ l := by
  induction l with
  | nil => simp [sortDesc]
  | cons x xs ih =>
      show z ∈ insertDesc x (sortDesc xs) ↔ _
      rw [mem_insertDesc]
      simp [ih, List.mem_cons]

/-- C5 (amended): the ranked table holds exactly the reports with
`average_tps > 0`, sorted descending by `average_tps` with ties keeping
discovery order (characterised by the per-value filter equation), the top
entry is named fastest, and reports with `average_tps <= 0` stay in the
persisted artifact; an empty results list takes the "No results to
display" branch, while a non-empty list — even one where no report has
`average_tps > 0` — renders the (then empty) ranked table without
faulting and without that message. -/
theorem c5_reporter_ranking (results : List ModelReport) (date : String)
    (sys : SystemInfo) :
    (∀ r ∈ (print_summary results).rows, 0 < r.average_tps) ∧
    List.Sorted (fun a b => b.average_tps ≤ a.average_tps)
      (print_summary results).rows ∧
    (∀ q : ℚ, (print_summary results).rows.filter
        (fun r => r.average_tps = q) =
      (results.filter (fun r => 0 < r.average_tps)).filter
        (fun r => r.average_tps = q)) ∧
    (print_summary results).fastest = (print_summary results).rows.head? ∧
    (save_results_data date sys results).results = results ∧
    (results = [] → print_summary results = ⟨true, [], none⟩) ∧
    (results ≠ [] → (print_summary results).no_results = false) := by
  by_cases he : results.isEmpty
  · have hnil : results = [] := List.isEmpty_iff.mp he
    subst hnil
    refine ⟨by simp [print_summary], by simp [print_summary, sortDesc], ?_,
      rfl, rfl, fun _ => rfl, fun h => absurd rfl h⟩
    intro q
    simp [print_summary, sortDesc]
  · have hps : print_summary results =
        ⟨false, sortDesc (results.filter (fun r => 0 < r.average_tps)),
         (sortDesc (results.filter (fun r => 0 < r.average_tps))).head?⟩ := by
      simp [print_summary, he]
    rw [hps]
    refine ⟨?_, sortDesc_sorted _, ?_, rfl, rfl,
      fun h => absurd (List.isEmpty_iff.mpr h) he, fun _ => rfl⟩
    · intro r hr
      have := (mem_sortDesc _ r).mp hr
      have := List.of_mem_filter this
      simpa using this
    · intro q
      exact sortDesc_filter_eq _ q

/-- C5 counterexample: one report with `average_tps = 0` — no report in
the list has positive average TPS, yet `print_summary` does not take the
"No results to display" branch (it renders an empty table instead): the
no-results message is tied to the results list being empty, not to the
ranked list being empty. -/
theorem c5_no_results_counterexample :
    ([zeroReport].all (fun r => decide (r.average_tps ≤ 0)) = true) ∧
    (print_summary [zeroReport]).no_results = false ∧
    (print_summary [zeroReport]).rows = [] ∧
    (print_summary [zeroReport]).fastest = none := by
  refine ⟨by decide, ?_, ?_, ?_⟩ <;>
  simp [print_summary, zeroReport, sortDesc, insertDesc]

/-- Projection: a report always carries the model name it was built for,
whichever branch of `benchmark_model` produced it. -/
theorem benchmark_model_model (model ts : String) (envs : Nat → InfEnv) :
    (benchmark_model model ts envs).model = model := by
  by_cases h : 0 < (bm_loop envs 0 test_prompts).successful_tests <;>
  simp [benchmark_model, h]

/-- C6: an exception escaping `benchmark_model` for one model is caught by
the orchestrator's `except Exception` arm and the loop continues: the
accumulated reports are exactly those of the same run with the faulting
model removed, so no other model's results are lost and the fault never
escalates to run level (and no report of the faulting model — partial or
otherwise — exists to include, since the exception discards its local
dictionary). -/
theorem c6_model_fault_isolated (ts : String)
    (pre post : List (String × ModelAttempt)) (m msg : String)
    (collected : List PromptResult) :
    run_loop ts (pre ++ (m, ModelAttempt.raised msg collected) :: post) =
      run_loop ts (pre ++ post) := by
  induction pre with
  | nil => rfl
  | cons p pre ih =>
      obtain ⟨name, a⟩ := p
      cases a with
      | ok envs => simp [run_loop, ih]
      | raised m2 c2 => simp [run_loop, ih]
      | interrupted c2 => rfl

/-- Helper: a run whose first attempts all complete and whose next model
is interrupted yields exactly the completed models' reports. -/
theorem run_loop_ok_interrupt (ts : String)
    (pre : List (String × (Nat → InfEnv))) (post : List (String × ModelAttempt))
    (m : String) (collected : List PromptResult) :
    run_loop ts (pre.map (fun p => (p.1, ModelAttempt.ok p.2)) ++
        (m, ModelAttempt.interrupted collected) :: post) =
      pre.map (fun p => benchmark_model p.1 ts p.2) := by
  induction pre with
  | nil => rfl
  | cons p pre ih => simp [run_loop, ih]

/-- C7 (amended): when a `KeyboardInterrupt` arrives while benchmarking
the model after `k` completed ones, the loop breaks and the persisted
artifact holds exactly those `k` completed reports, in order; the prompt
results the interrupted model had already collected are discarded with its
local dictionary — no report is emitted for it. -/
theorem c7_interrupt_finalize (ts date : String) (sys : SystemInfo)
    (pre : List (String × (Nat → InfEnv))) (post : List (String × ModelAttempt))
    (m : String) (collected : List PromptResult) (out : String)
    (att : String → ModelAttempt) :
    (save_results_data date sys
        (run_loop ts (pre.map (fun p => (p.1, ModelAttempt.ok p.2)) ++
          (m, ModelAttempt.interrupted collected) :: post))).results =
      pre.map (fun p => benchmark_model p.1 ts p.2) ∧
    (run_loop ts (pre.map (fun p => (p.1, ModelAttempt.ok p.2)) ++
        (m, ModelAttempt.interrupted collected) :: post)).map
      (fun r => r.model) = pre.map Prod.fst ∧
    (parse_model_list out ≠ [] →
      run_full_benchmark ts date sys (ListOutcome.ok out) att =
        Except.ok
          ⟨run_loop ts ((parse_model_list out).map (fun x => (x, att x))),
           some (save_results_data date sys
             (run_loop ts ((parse_model_list out).map (fun x => (x, att x))))),
           some (print_summary
             (run_loop ts ((parse_model_list out).map (fun x => (x, att x)))))⟩) := by
  refine ⟨run_loop_ok_interrupt ts pre post m collected, ?_, ?_⟩
  · rw [run_loop_ok_interrupt ts pre post m collected]
    simp [benchmark_model_model]
  · intro h
    match h2 : parse_model_list out with
    | [] => exact absurd h2 h
    | x :: xs => simp [run_full_benchmark, get_available_models, h2]

/-- C7 counterexample: model m1 completes, m2 is interrupted mid-sequence
having already collected one prompt result, m3 never runs — the persisted
artifact names only m1; the non-empty collected prefix of m2 appears in no
report. -/
theorem c7_partial_model_counterexample :
    ((save_results_data "d" csys (run_loop "ts" cAttempts)).results.map
      (fun r => r.model)) = ["m1"] ∧
    ([cpr] : List PromptResult) ≠ [] := by
  exact ⟨rfl, by decide⟩

/-- C8 (amended): when the backend binary cannot be invoked the
`FileNotFoundError` is not caught in discovery and propagates — fatal, no
artifact; when the backend returns a non-zero status the
`CalledProcessError` is caught and discovery returns a successful empty
list, so the orchestrator terminates early exactly as for a genuinely
empty listing: no artifact is written and "no models found" is signalled. -/
theorem c8_discovery_behaviour (e out ts date : String) (sys : SystemInfo)
    (att : String → ModelAttempt) :
    get_available_models (ListOutcome.fileNotFoundError e) = Except.error e ∧
    get_available_models (ListOutcome.calledProcessError e) = Except.ok [] ∧
    run_full_benchmark ts date sys (ListOutcome.fileNotFoundError e) att =
      Except.error e ∧
    run_full_benchmark ts date sys (ListOutcome.calledProcessError e) att =
      Except.ok ⟨[], none, none⟩ ∧
    (parse_model_list out = [] →
      run_full_benchmark ts date sys (ListOutcome.ok out) att =
        Except.ok ⟨[], none, none⟩) := by
  refine ⟨rfl, rfl, rfl, rfl, fun h => ?_⟩
  simp [run_full_benchmark, get_available_models, h]

/-- C8 counterexample: a backend that exits non-zero does not produce a
discovery error — `get_available_models` catches the fault and returns a
successful empty list, and the run ends early with no artifact instead of
failing with a distinct discovery error. -/
theorem c8_discovery_counterexample :
    get_available_models (ListOutcome.calledProcessError "boom") =
      Except.ok ([] : List String) ∧
    run_full_benchmark "ts" "d" csys (ListOutcome.calledProcessError "boom")
      (fun _ => ModelAttempt.ok cenvFail) = Except.ok ⟨[], none, none⟩ := by
  exact ⟨rfl, rfl⟩

/-- C9 (amended): `save_results` succeeds on any accumulated reports list
(in particular a strict prefix of the discovered models), stores it
verbatim, and repeated calls on the same calendar date target the same
file name, opened in truncating write mode, so the prior artifact is
overwritten; but the write goes directly to the final path — there is no
temp-and-rename, so the write is not atomic in the claimed sense. -/
theorem c9_save_results_behaviour (date a b : String) (sys : SystemInfo)
    (reports : List ModelReport) :
    (save_results_data date sys reports).results = reports ∧
    (save_results_data date sys reports).timeout_seconds = 120 ∧
    save_results_ops date a =
      [FsOp.openTrunc (results_filename date),
       FsOp.write (results_filename date) a,
       FsOp.close (results_filename date)] ∧
    save_results_ops date b =
      [FsOp.openTrunc (results_filename date),
       FsOp.write (results_filename date) b,
       FsOp.close (results_filename date)] ∧
    ¬ atomicViaRename (save_results_ops date a) (results_filename date) := by
  refine ⟨rfl, rfl, rfl, rfl, ?_⟩
  intro hA
  exact hA.1 (by simp [save_results_ops])

/-- C9 counterexample: on a concrete date and content the write trace is
open-truncate, write, close on the final path — not atomic via rename —
and a reader between the truncating open and the write observes the
artifact as empty, while the completed trace leaves the full content:
a half-written artifact is observable. -/
theorem c9_atomicity_counterexample :
    ¬ atomicViaRename (save_results_ops "2025-01-01" "data")
        (results_filename "2025-01-01") ∧
    runOps (fun _ => none) ((save_results_ops "2025-01-01" "data").take 1)
      (results_filename "2025-01-01") = some "" ∧
    runOps (fun _ => none) (save_results_ops "2025-01-01" "data")
      (results_filename "2025-01-01") = some "data" ∧
    ("" : String) ≠ "data" := by
  refine ⟨fun hA => hA.1 (by simp [save_results_ops]), rfl, rfl, by decide⟩
